import Mathlib

/-!
Shallow embedding of the wallet-session and transaction-orchestration logic
of `src/src/App.js` (the current revision of the single-page dApp; the file
`src/unnamed/part_000` is an earlier revision of the same component).

External effects (the injected wallet provider, the chain RPC layer, the
`prompt` dialog, transaction mining) are modelled as explicit inputs: each
embedded operation takes the outcomes the environment would produce and
returns the list of requests it issues together with its result, exactly
following the control flow of the source.
-/

namespace Verse


/-! ### String helpers

`charsBeginWith` / `charsContain` implement the JavaScript
`String.prototype.includes` used by the revert-message classifier;
`strContains` applies them to strings. -/

def charsBeginWith : List Char → List Char → Bool
  | [], _ => true
  | _ :: _, [] => false
  | a :: as, b :: bs => a == b && charsBeginWith as bs

def charsContain (needle : List Char) : List Char → Bool
  | [] => needle.isEmpty
  | b :: bs => charsBeginWith needle (b :: bs) || charsContain needle bs

def strContains (hay needle : String) : Bool :=
  charsContain needle.toList hay.toList

/-! ### Wallet/Chain Availability Detector (`checkWalletAvailability`, App.js 86-109)

The environment is modelled by `detect : Nat → Bool`, giving the result of
the `k`-th call to `detectDeviceAndWallet` (`k = 0` is the immediate check,
`k ≥ 1` the 100 ms interval ticks).  The function returns the resolved
boolean together with the number of interval attempts consumed. -/

inductive DeviceClass
  | mobile
  | desktop
  deriving DecidableEq, Repr

def maxAttempts : DeviceClass → Nat
  | .mobile => 20
  | .desktop => 50

def pollFrom (detect : Nat → Bool) : Nat → Nat → Bool × Nat
  | 0, used => (false, used)
  | fuel + 1, used =>
    if detect (used + 1) then (true, used + 1)
    else pollFrom detect fuel (used + 1)

def checkWalletAvailability (d : DeviceClass) (detect : Nat → Bool) : Bool × Nat :=
  if detect 0 then (true, 0)
  else pollFrom detect (maxAttempts d) 0

/-! ### Configuration and the chain step of `connectWallet` (App.js 199-228)

`switchOutcome = none` models a `wallet_switchEthereumChain` request that the
provider accepts, `some code` one it rejects with that error code;
`addOutcome` plays the same role for `wallet_addEthereumChain`. -/

structure Config where
  contractAddress : String
  usdtAddress : String
  chainId : Nat
  networkName : String
  rpcUrl : String
  explorerUrl : String
  currencyName : String
  currencySymbol : String
  deriving DecidableEq, Repr

def chainHex (n : Nat) : String :=
  "0x" ++ String.mk (Nat.toDigits 16 n)

structure AddChainParams where
  chainIdHex : String
  chainName : String
  currencyName : String
  currencySymbol : String
  currencyDecimals : Nat
  rpcUrls : List String
  blockExplorerUrls : List String
  deriving DecidableEq, Repr

def networkDescriptor (cfg : Config) : AddChainParams :=
  { chainIdHex := chainHex cfg.chainId
    chainName := cfg.networkName
    currencyName := cfg.currencyName
    currencySymbol := cfg.currencySymbol
    currencyDecimals := 18
    rpcUrls := [cfg.rpcUrl]
    blockExplorerUrls := [cfg.explorerUrl] }

inductive ConnectError
  | walletUnavailable
  | noAccounts
  | chainSwitchFailed (code : Nat)
  | chainAddFailed (msg : String)
  deriving DecidableEq, Repr

inductive WalletRequest
  | requestAccounts
  | switchChain (chainIdHex : String)
  | addChain (p : AddChainParams)
  deriving DecidableEq, Repr

def isSwitchRequest : WalletRequest → Bool
  | .switchChain _ => true
  | _ => false

/-- Chain check of `connectWallet`: when the current chain of the wallet differs
from `cfg.chainId`, request a switch; if that fails with provider code 4902,
request chain registration with the full network descriptor and proceed; on
any other switch failure re-throw the switch error.  No second switch request
is ever issued. -/
def ensureChain (cfg : Config) (current : Nat) (switchOutcome : Option Nat)
    (addOutcome : Option String) : List WalletRequest × Option ConnectError :=
  if current ≠ cfg.chainId then
    match switchOutcome with
    | none => ([.switchChain (chainHex cfg.chainId)], none)
    | some code =>
      if code = 4902 then
        match addOutcome with
        | none =>
          ([.switchChain (chainHex cfg.chainId), .addChain (networkDescriptor cfg)], none)
        | some m =>
          ([.switchChain (chainHex cfg.chainId), .addChain (networkDescriptor cfg)],
            some (.chainAddFailed m))
      else ([.switchChain (chainHex cfg.chainId)], some (.chainSwitchFailed code))
  else ([], none)

def cfg0 : Config :=
  { contractAddress := "0x00000000000000000000000000000000c0de0001"
    usdtAddress := "0x00000000000000000000000000000000c0de0002"
    chainId := 56
    networkName := "BNB Smart Chain"
    rpcUrl := "https://rpc.example"
    explorerUrl := "https://scan.example"
    currencyName := "BNB"
    currencySymbol := "BNB" }

/-! ### Session manager: `loadUser`, `connectWallet`, `handleAccountsChanged` -/

structure UserDetails where
  id : Nat
  level : Nat
  balance : Rat
  existsFlag : Bool
  deriving DecidableEq, Repr

structure UserRecord where
  id : Nat
  level : Nat
  balance : Rat
  deriving DecidableEq, Repr

/-- `loadUser` (App.js 244-256): runs the read-only `getMyDetails` query and
collapses any failure (the revert for an unregistered caller, or any other
query error, carried here as the error message) to an absent user record; the
surrounding try/catch means it never propagates an error to its caller. -/
def loadUser (query : Except String UserDetails) : Option UserRecord :=
  match query with
  | .ok u => some { id := u.id, level := u.level, balance := u.balance }
  | .error _ => none

structure ConnectInput where
  ethereumPresent : Bool
  accounts : List String
  address : String
  currentChainId : Nat
  switchOutcome : Option Nat
  addOutcome : Option String
  detailsQuery : Except String UserDetails
  deriving Repr

/-- `connectWallet` (App.js 174-242): provider presence check, account
request, chain check via `ensureChain`, then contract-handle construction and
a non-fatal user refresh.  The result carries the wallet requests issued and
either a connection error or the connected address with the refreshed user
record. -/
def connectWallet (cfg : Config) (inp : ConnectInput) :
    List WalletRequest × Except ConnectError (String × Option UserRecord) :=
  if inp.ethereumPresent = false then ([], .error .walletUnavailable)
  else if inp.accounts.isEmpty then ([.requestAccounts], .error .noAccounts)
  else
    match ensureChain cfg inp.currentChainId inp.switchOutcome inp.addOutcome with
    | (creqs, some e) => (WalletRequest.requestAccounts :: creqs, .error e)
    | (creqs, none) =>
      (WalletRequest.requestAccounts :: creqs, .ok (inp.address, loadUser inp.detailsQuery))

def sessionOk : Except ConnectError (String × Option UserRecord) → Bool
  | .ok _ => true
  | .error _ => false

structure AppState where
  account : Option String
  contractSet : Bool
  signerSet : Bool
  user : Option UserRecord
  deriving DecidableEq, Repr

/-- Effect of a completed `connectWallet` call on the component state: the
four state setters run only after every fallible step has succeeded, so on a
connection failure the previous state is left untouched. -/
def connectApply (cfg : Config) (st : AppState) (inp : ConnectInput) : AppState :=
  match (connectWallet cfg inp).2 with
  | .ok (addr, u) =>
    { account := some addr, contractSet := true, signerSet := true, user := u }
  | .error _ => st

/-- `handleAccountsChanged` (App.js 144-155): an empty account list clears
account, contract handle, signer and user record; a non-empty list re-runs
`connectWallet` from scratch. -/
def handleAccountsChanged (cfg : Config) (st : AppState) (inp : ConnectInput)
    (accounts : List String) : AppState :=
  if accounts.isEmpty then
    { account := none, contractSet := false, signerSet := false, user := none }
  else connectApply cfg st inp

def addr0 : String := "0x00000000000000000000000000000000c0de00aa"

def notRegisteredMsg : String := "execution reverted: user not registered"

def connInput0 : ConnectInput :=
  { ethereumPresent := true
    accounts := [addr0]
    address := addr0
    currentChainId := 56
    switchOutcome := none
    addOutcome := none
    detailsQuery := .error notRegisteredMsg }

def st0 : AppState :=
  { account := some addr0
    contractSet := true
    signerSet := true
    user := some { id := 7, level := 2, balance := 5 } }

/-! ### Contract action orchestrator: `register`, `upgrade`, `withdraw`

The revert-message classifier of `register` (App.js 472-491) lowercases the
message (`lowerStr` is the ASCII lowercasing performed by `toLowerCase` in
the source) and runs an ordered chain of `includes` substring tests. -/

def lowerStr (s : String) : String := String.mk (s.toList.map Char.toLower)

def kwAlreadyRegistered : String := "already registered"

def kwUserExists : String := "user exists"

def kwReferrerWord : String := "referrer"

def kwInvalidReferrer : String := "invalid referrer"

def kwAllowanceWord : String := "allowance"

def kwExceedsAllowance : String := "transfer amount exceeds allowance"

def kwBalanceWord : String := "balance"

def kwExceedsBalance : String := "transfer amount exceeds balance"

def kwFeeWord : String := "fee"

def kwAmountWord : String := "amount"

def kwAlready (m : String) : Bool :=
  strContains m kwAlreadyRegistered || strContains m kwUserExists

def kwReferrer (m : String) : Bool :=
  strContains m kwReferrerWord || strContains m kwInvalidReferrer

def kwAllowance (m : String) : Bool :=
  strContains m kwAllowanceWord || strContains m kwExceedsAllowance

def kwBalance (m : String) : Bool :=
  strContains m kwBalanceWord || strContains m kwExceedsBalance

def kwFee (m : String) : Bool :=
  strContains m kwFeeWord || strContains m kwAmountWord

inductive SimErrorClass
  | alreadyRegistered
  | invalidReferrer
  | insufficientAllowance
  | insufficientBalance
  | feeIssue
  | unknown
  deriving DecidableEq, Repr

/-- Classification of the revert message of a failed simulation: lowercase the
message, then run the ordered first-match-wins chain of substring tests. -/
def classifyRevert (msg : String) : SimErrorClass :=
  let m := lowerStr msg
  if kwAlready m then .alreadyRegistered
  else if kwReferrer m then .invalidReferrer
  else if kwAllowance m then .insufficientAllowance
  else if kwBalance m then .insufficientBalance
  else if kwFee m then .feeIssue
  else .unknown

structure TokenStatus where
  balance : Rat
  allowance : Rat
  deriving DecidableEq, Repr

inductive TokenQueryOutcome
  | notConnected
  | queryError
  | ok (s : TokenStatus)
  deriving DecidableEq, Repr

inductive RegStep
  | tokenStatusQuery
  | detailsQuery
  | promptUser
  | simulation (referrer : String)
  | txRegister (referrer : String) (gasLimit : Nat)
  | txUpgrade
  | txWithdraw
  | userRefresh
  deriving DecidableEq, Repr

/-- `checkUSDTStatus` (App.js 280-299): with no signer or account it returns
immediately without querying; otherwise it queries balance and allowance and
collapses a query error to `none`. -/
def checkUSDTStatus : TokenQueryOutcome → List RegStep × Option TokenStatus
  | .notConnected => ([], none)
  | .queryError => ([.tokenStatusQuery], none)
  | .ok s => ([.tokenStatusQuery], some s)

def zeroAddress : String := "0x0000000000000000000000000000000000000000"

def isHexDigitChar (c : Char) : Bool :=
  ('0' ≤ c && c ≤ '9') || ('a' ≤ c && c ≤ 'f') || ('A' ≤ c && c ≤ 'F')

/-- The referrer format test, the regex `^0x[a-fA-F0-9]{40}$` of App.js 461. -/
def isHexAddress (s : String) : Bool :=
  match s.toList with
  | '0' :: 'x' :: rest => rest.length == 40 && rest.all isHexDigitChar
  | _ => false

/-- `referrer || zeroAddress` (App.js 453): a cancelled prompt (`null`) and
the empty string are both JavaScript-falsy, so both resolve to the zero
address. -/
def resolveReferrer : Option String → String
  | none => zeroAddress
  | some s => if s = "" then zeroAddress else s

def alreadyRegisteredMsg : String := "You are already registered with this wallet address"

/-- The pre-simulation registered check (App.js 441-450): the error it throws
when the `exists` flag is set — like any failure of the `getMyDetails` call
itself — lands in the catch clause of the same block, which only logs it. -/
def preCheckThrown : Except String UserDetails → Option String
  | .ok u => if u.existsFlag then some alreadyRegisteredMsg else none
  | .error m => some m

inductive RegError
  | insufficientBalance
  | insufficientAllowance
  | contractNotInitialized
  | invalidReferrerFormat
  | alreadyRegistered
  | invalidReferrer
  | simAllowance
  | simBalance
  | feeIssue
  | registrationFailed (msg : String)
  | txFailed
  deriving DecidableEq, Repr

def simErrorToRegError (msg : String) : RegError :=
  match classifyRevert msg with
  | .alreadyRegistered => .alreadyRegistered
  | .invalidReferrer => .invalidReferrer
  | .insufficientAllowance => .simAllowance
  | .insufficientBalance => .simBalance
  | .feeIssue => .feeIssue
  | .unknown => .registrationFailed msg

structure RegisterInput where
  contractSet : Bool
  tokenQuery : TokenQueryOutcome
  detailsPre : Except String UserDetails
  promptInput : Option String
  simOutcome : Option String
  txOk : Bool
  deriving Repr

/-- Pre-flight of `register` (App.js 426-439): only run when the token-status
query produced a result; balance is tested before allowance, both against the
fixed threshold 10. -/
def preflightCheck (ts : Option TokenStatus) : Option RegError :=
  match ts with
  | some s =>
    if s.balance < 10 then some .insufficientBalance
    else if s.allowance < 10 then some .insufficientAllowance
    else none
  | none => none

/-- `register` (App.js 420-524): token pre-flight, swallowed registered
pre-check, referrer prompt, contract guard, referrer format validation,
simulation (`staticCall`) with revert-message classification on failure, then
the real transaction with a 300000 gas ceiling and an unconditional user
refresh after confirmation. -/
def register (inp : RegisterInput) : List RegStep × Option RegError :=
  let (tsSteps, ts) := checkUSDTStatus inp.tokenQuery
  match preflightCheck ts with
  | some e => (tsSteps, some e)
  | none =>
    let steps1 := tsSteps ++ [RegStep.detailsQuery]
    let _thrown := preCheckThrown inp.detailsPre
    let steps2 := steps1 ++ [RegStep.promptUser]
    let referrerAddress := resolveReferrer inp.promptInput
    if inp.contractSet = false then (steps2, some .contractNotInitialized)
    else if referrerAddress != zeroAddress && !(isHexAddress referrerAddress) then
      (steps2, some .invalidReferrerFormat)
    else
      match inp.simOutcome with
      | some m =>
        (steps2 ++ [RegStep.simulation referrerAddress], some (simErrorToRegError m))
      | none =>
        let steps3 := steps2 ++
          [RegStep.simulation referrerAddress, RegStep.txRegister referrerAddress 300000]
        if inp.txOk then (steps3 ++ [RegStep.userRefresh], none)
        else (steps3, some .txFailed)

/-- `upgrade` (App.js 526-545): contract guard, transaction, wait, then user
refresh. -/
def upgrade (contractSet : Bool) (txOk : Bool) : List RegStep × Option RegError :=
  if contractSet = false then ([], some .contractNotInitialized)
  else if txOk then ([.txUpgrade, .userRefresh], none)
  else ([.txUpgrade], some .txFailed)

/-- `withdraw` (App.js 547-566): contract guard, transaction, wait, then user
refresh. -/
def withdraw (contractSet : Bool) (txOk : Bool) : List RegStep × Option RegError :=
  if contractSet = false then ([], some .contractNotInitialized)
  else if txOk then ([.txWithdraw, .userRefresh], none)
  else ([.txWithdraw], some .txFailed)

/-! ### Concrete inputs used by counterexamples and witnesses -/

def emptyStr : String := ""

def referrerBadInput : String := "not-an-address"

def referrerHexInput : String := "0x00000000000000000000000000000000c0de00bb"

def alreadyRevertMsg : String := "execution reverted: already registered"

def feeRevertMsg : String := "execution reverted: fee too low"

def multiKeywordMsg : String := "user exists and transfer amount exceeds balance"

def userExistsDetails : UserDetails :=
  { id := 1, level := 1, balance := 0, existsFlag := true }

def regInputBase : RegisterInput :=
  { contractSet := true
    tokenQuery := .ok { balance := 20, allowance := 20 }
    detailsPre := .error notRegisteredMsg
    promptInput := none
    simOutcome := none
    txOk := true }

def regInputLowBalance : RegisterInput :=
  { regInputBase with tokenQuery := .ok { balance := 9, allowance := 10 } }

def regInputExactThreshold : RegisterInput :=
  { regInputBase with tokenQuery := .ok { balance := 10, allowance := 10 } }

def regInputEmptyRef : RegisterInput :=
  { regInputBase with promptInput := some emptyStr }

def regInputBadRef : RegisterInput :=
  { regInputBase with promptInput := some referrerBadInput }

def regInputHexRef : RegisterInput :=
  { regInputBase with promptInput := some referrerHexInput }

def regInputSimAlready : RegisterInput :=
  { regInputBase with simOutcome := some alreadyRevertMsg }

def regInputQueryError : RegisterInput :=
  { regInputBase with tokenQuery := .queryError }

/-! ### Claim theorems about the orchestrator -/

theorem pollFrom_attempts_le (detect : Nat → Bool) :
    ∀ fuel used, (pollFrom detect fuel used).2 ≤ used + fuel := by
  intro fuel
  induction fuel with
  | zero => intro used; simp [pollFrom]
  | succ n ih =>
    intro used
    simp only [pollFrom]
    split
    · simp
    · have h := ih (used + 1)
      omega

theorem pollFrom_false_exhausts (detect : Nat → Bool) :
    ∀ fuel used, (pollFrom detect fuel used).1 = false →
      (pollFrom detect fuel used).2 = used + fuel := by
  intro fuel
  induction fuel with
  | zero => intro used _; simp [pollFrom]
  | succ n ih =>
    intro used h
    simp only [pollFrom] at h ⊢
    split at h
    · simp at h
    · rename_i hd
      rw [if_neg hd]
      have := ih (used + 1) (by simpa [pollFrom] using h)
      omega

/-- C5: the availability check polls at most its bounded attempt budget
(20 interval attempts on mobile, 50 on desktop), terminates, and resolves
`available = false` only after exhausting that budget. -/
theorem detector_bounded (d : DeviceClass) (detect : Nat → Bool) :
    (checkWalletAvailability d detect).2 ≤ maxAttempts d ∧
    maxAttempts DeviceClass.mobile = 20 ∧
    maxAttempts DeviceClass.desktop = 50 ∧
    ((checkWalletAvailability d detect).1 = false →
      (checkWalletAvailability d detect).2 = maxAttempts d) := by
  refine ⟨?_, rfl, rfl, ?_⟩
  · unfold checkWalletAvailability
    split
    · simp
    · simpa using pollFrom_attempts_le detect (maxAttempts d) 0
  · intro h
    unfold checkWalletAvailability at h ⊢
    split at h
    · simp at h
    · rename_i hd
      rw [if_neg hd]
      simpa using pollFrom_false_exhausts detect (maxAttempts d) 0 h

/-- C5 witness: on a mobile device class with a provider that never appears,
the detector resolves `false` after exactly 20 attempts. -/
theorem detector_bounded_witness :
    (checkWalletAvailability DeviceClass.mobile (fun _ => false)).2 ≤
        maxAttempts DeviceClass.mobile ∧
    (checkWalletAvailability DeviceClass.mobile (fun _ => false)).2 =
        maxAttempts DeviceClass.mobile :=
  ⟨(detector_bounded DeviceClass.mobile (fun _ => false)).1,
   (detector_bounded DeviceClass.mobile (fun _ => false)).2.2.2 (by decide)⟩

/-- C1 counterexample: wallet on chain 1, configured chain 56, switch rejected
with code 4902, add request accepted.  The connection proceeds (no error), yet
exactly one switch request was issued: the switch is never retried after the
chain-registration request, contrary to the claim. -/
theorem connect_no_retry_cex :
    (ensureChain cfg0 1 (some 4902) none).2 = none ∧
    (ensureChain cfg0 1 (some 4902) none).1 =
      [WalletRequest.switchChain (chainHex cfg0.chainId),
       WalletRequest.addChain (networkDescriptor cfg0)] ∧
    List.countP isSwitchRequest (ensureChain cfg0 1 (some 4902) none).1 = 1 := by
  decide

/-- C1 (amended): whenever the current chain differs from the configured one,
`connectWallet` first issues a switch request; a successful switch issues no
registration request; a switch failure with code 4902 issues a registration
request carrying the full network descriptor and then proceeds directly to
constructing the contract handle without retrying the switch (aborting only if
the registration request itself fails); any other switch failure aborts the
connection with that error. -/
theorem connect_chain_flow (cfg : Config) (current : Nat) (so : Option Nat)
    (ao : Option String) (h : current ≠ cfg.chainId) :
    ((ensureChain cfg current so ao).1.head? =
      some (WalletRequest.switchChain (chainHex cfg.chainId))) ∧
    (so = none →
      (ensureChain cfg current so ao).1 =
        [WalletRequest.switchChain (chainHex cfg.chainId)] ∧
      (ensureChain cfg current so ao).2 = none) ∧
    (so = some 4902 →
      (ensureChain cfg current so ao).1 =
        [WalletRequest.switchChain (chainHex cfg.chainId),
         WalletRequest.addChain (networkDescriptor cfg)] ∧
      ((ensureChain cfg current so ao).2 = none ↔ ao = none)) ∧
    (∀ code, so = some code → code ≠ 4902 →
      (ensureChain cfg current so ao).1 =
        [WalletRequest.switchChain (chainHex cfg.chainId)] ∧
      (ensureChain cfg current so ao).2 =
        some (ConnectError.chainSwitchFailed code)) ∧
    List.countP isSwitchRequest (ensureChain cfg current so ao).1 ≤ 1 := by
  unfold ensureChain
  rw [if_pos h]
  match so with
  | none =>
    simp [isSwitchRequest]
  | some code =>
    by_cases hc : code = 4902
    · subst hc
      match ao with
      | none => simp [isSwitchRequest]
      | some m => simp [isSwitchRequest]
    · simp [isSwitchRequest, hc]

/-- C1 witness: the amended chain-flow theorem applied at the configured chain
56 with the wallet on chain 1 and a successful switch. -/
theorem connect_chain_flow_witness :
    ((1 : Nat) ≠ cfg0.chainId) ∧
    ((ensureChain cfg0 1 none none).1 =
       [WalletRequest.switchChain (chainHex cfg0.chainId)] ∧
     (ensureChain cfg0 1 none none).2 = none) :=
  ⟨by decide, (connect_chain_flow cfg0 1 none none (by decide)).2.1 rfl⟩

/-- C6: an accounts-changed notification with an empty account list tears the
session fully down — account, contract handle, signer and user record all
reset to absent; a non-empty list triggers a full reconnect whose resulting
session state is computed from the connect inputs alone, independent of the
prior state. -/
theorem accountsChanged_behavior (cfg : Config) (st : AppState) (inp : ConnectInput)
    (accounts : List String) :
    (accounts = [] →
      handleAccountsChanged cfg st inp accounts =
        { account := none, contractSet := false, signerSet := false, user := none }) ∧
    (accounts ≠ [] →
      handleAccountsChanged cfg st inp accounts = connectApply cfg st inp ∧
      (∀ addr u, (connectWallet cfg inp).2 = .ok (addr, u) →
        ∀ st' : AppState, handleAccountsChanged cfg st' inp accounts =
          { account := some addr, contractSet := true, signerSet := true, user := u })) := by
  constructor
  · intro h; subst h; simp [handleAccountsChanged]
  · intro h
    have hne : accounts.isEmpty = false := by
      cases accounts <;> simp_all
    refine ⟨by simp [handleAccountsChanged, hne], ?_⟩
    intro addr u hok st'
    simp [handleAccountsChanged, hne, connectApply, hok]

/-- C6 witness: the teardown case applied to the empty account list from a
fully populated session state. -/
theorem accountsChanged_behavior_witness :
    handleAccountsChanged cfg0 st0 connInput0 [] =
      { account := none, contractSet := false, signerSet := false, user := none } :=
  (accountsChanged_behavior cfg0 st0 connInput0 []).1 rfl

/-- C7: the user-record refresh collapses every query failure (including the
not-registered revert) to an absent user record, and the success/failure
verdict of `connectWallet` is independent of the refresh outcome, so a refresh
failure never fails the connection. -/
theorem refresh_nonfatal (cfg : Config) (inp : ConnectInput)
    (q q' : Except String UserDetails) (m : String) :
    loadUser (Except.error m) = none ∧
    sessionOk (connectWallet cfg { inp with detailsQuery := q }).2 =
      sessionOk (connectWallet cfg { inp with detailsQuery := q' }).2 ∧
    (sessionOk (connectWallet cfg { inp with detailsQuery := Except.error m }).2 = true →
      (connectWallet cfg { inp with detailsQuery := Except.error m }).2 =
        .ok (inp.address, none)) := by
  refine ⟨rfl, ?_, ?_⟩
  · by_cases hep : inp.ethereumPresent = false
    · simp [connectWallet, hep]
    · by_cases hacc : inp.accounts = []
      · simp [connectWallet, hep, hacc]
      · rcases h : ensureChain cfg inp.currentChainId inp.switchOutcome inp.addOutcome
          with ⟨creqs, err⟩
        cases err <;> simp [connectWallet, hep, hacc, h, sessionOk]
  · intro hok
    by_cases hep : inp.ethereumPresent = false
    · simp [connectWallet, hep, sessionOk] at hok
    · by_cases hacc : inp.accounts = []
      · simp [connectWallet, hep, hacc, sessionOk] at hok
      · rcases h : ensureChain cfg inp.currentChainId inp.switchOutcome inp.addOutcome
          with ⟨creqs, err⟩
        cases err with
        | none => simp [connectWallet, hep, hacc, h, loadUser]
        | some e => simp [connectWallet, hep, hacc, h, sessionOk] at hok

/-- C7 witness: a connection over `cfg0` whose user query reverts with the
not-registered message still succeeds, with an absent user record. -/
theorem refresh_nonfatal_witness :
    loadUser (Except.error notRegisteredMsg) = none ∧
    (connectWallet cfg0 { connInput0 with detailsQuery := Except.error notRegisteredMsg }).2 =
      Except.ok (connInput0.address, none) :=
  ⟨(refresh_nonfatal cfg0 connInput0 (Except.error notRegisteredMsg)
      (Except.error notRegisteredMsg) notRegisteredMsg).1,
   (refresh_nonfatal cfg0 connInput0 (Except.error notRegisteredMsg)
      (Except.error notRegisteredMsg) notRegisteredMsg).2.2 (by decide)⟩

/-! ### Helper lemmas about the control flow of `register` -/

theorem register_preflight_stops (inp : RegisterInput) (e : RegError)
    (hpf : preflightCheck (checkUSDTStatus inp.tokenQuery).2 = some e) :
    register inp = ((checkUSDTStatus inp.tokenQuery).1, some e) := by
  rcases h : checkUSDTStatus inp.tokenQuery with ⟨tsSteps, ts⟩
  rw [h] at hpf
  simp only [register, h, hpf]

theorem simErrorToRegError_ne_preflight (m : String) :
    simErrorToRegError m ≠ RegError.insufficientBalance ∧
    simErrorToRegError m ≠ RegError.insufficientAllowance := by
  unfold simErrorToRegError
  cases classifyRevert m <;> simp

theorem register_prompt_reached (inp : RegisterInput)
    (hpf : preflightCheck (checkUSDTStatus inp.tokenQuery).2 = none) :
    RegStep.promptUser ∈ (register inp).1 := by
  rcases h : checkUSDTStatus inp.tokenQuery with ⟨tsSteps, ts⟩
  rw [h] at hpf
  simp only [register, h, hpf]
  split
  · simp
  · split
    · simp
    · split
      · simp
      · split <;> simp

theorem register_reaches_simulation (inp : RegisterInput)
    (hpf : preflightCheck (checkUSDTStatus inp.tokenQuery).2 = none)
    (hc : inp.contractSet = true)
    (hr : isHexAddress (resolveReferrer inp.promptInput) = true) :
    RegStep.simulation (resolveReferrer inp.promptInput) ∈ (register inp).1 := by
  rcases h : checkUSDTStatus inp.tokenQuery with ⟨tsSteps, ts⟩
  rw [h] at hpf
  cases hs : inp.simOutcome with
  | some m => simp [register, h, hpf, hc, hr, hs]
  | none => by_cases ht : inp.txOk <;> simp [register, h, hpf, hc, hr, hs, ht]

theorem register_no_insufficiency_after_preflight (inp : RegisterInput)
    (hpf : preflightCheck (checkUSDTStatus inp.tokenQuery).2 = none) :
    (register inp).2 ≠ some RegError.insufficientBalance ∧
    (register inp).2 ≠ some RegError.insufficientAllowance := by
  rcases h : checkUSDTStatus inp.tokenQuery with ⟨tsSteps, ts⟩
  rw [h] at hpf
  simp only [register, h, hpf]
  split
  · simp
  · split
    · simp
    · split
      · rename_i m _
        have hne := simErrorToRegError_ne_preflight m
        simp [hne.1, hne.2]
      · split <;> simp

theorem register_no_simulation_on_preflight_error (inp : RegisterInput) (e : RegError)
    (hpf : preflightCheck (checkUSDTStatus inp.tokenQuery).2 = some e) :
    ∀ r, RegStep.simulation r ∉ (register inp).1 := by
  intro r
  rw [register_preflight_stops inp e hpf]
  cases hq : inp.tokenQuery <;> simp [checkUSDTStatus, hq]

theorem preflightCheck_not_already (ts : Option TokenStatus) :
    preflightCheck ts ≠ some RegError.alreadyRegistered := by
  unfold preflightCheck
  cases ts with
  | none => simp
  | some s =>
    by_cases hb : s.balance < 10 <;> by_cases ha : s.allowance < 10 <;> simp [hb, ha]

theorem register_alreadyRegistered_from_sim (inp : RegisterInput)
    (h : (register inp).2 = some RegError.alreadyRegistered) :
    ∃ m, inp.simOutcome = some m ∧
      classifyRevert m = SimErrorClass.alreadyRegistered := by
  rcases hts : checkUSDTStatus inp.tokenQuery with ⟨tsSteps, ts⟩
  simp only [register, hts] at h
  cases hpf : preflightCheck ts with
  | some e =>
    rw [hpf] at h
    simp only [] at h
    have he : e = RegError.alreadyRegistered := by simpa using h
    subst he
    exact absurd hpf (preflightCheck_not_already ts)
  | none =>
    rw [hpf] at h
    simp only [] at h
    by_cases hc : inp.contractSet = false
    · rw [if_pos hc] at h; simp at h
    · rw [if_neg hc] at h
      by_cases hval : (resolveReferrer inp.promptInput != zeroAddress &&
          !(isHexAddress (resolveReferrer inp.promptInput))) = true
      · rw [if_pos hval] at h; simp at h
      · rw [if_neg hval] at h
        cases hs : inp.simOutcome with
        | some m =>
          rw [hs] at h
          simp only [] at h
          refine ⟨m, rfl, ?_⟩
          have h2 : simErrorToRegError m = RegError.alreadyRegistered := by
            simpa using h
          unfold simErrorToRegError at h2
          cases hcl : classifyRevert m <;> rw [hcl] at h2 <;> simp_all
        | none =>
          rw [hs] at h
          simp only [] at h
          by_cases ht : inp.txOk = true
          · rw [if_pos ht] at h; simp at h
          · rw [if_neg ht] at h; simp at h

theorem register_success_shape (inp : RegisterInput)
    (h : (register inp).2 = none) :
    (register inp).1.getLast? = some RegStep.userRefresh ∧
    RegStep.txRegister (resolveReferrer inp.promptInput) 300000 ∈ (register inp).1 := by
  rcases hts : checkUSDTStatus inp.tokenQuery with ⟨tsSteps, ts⟩
  simp only [register, hts] at h ⊢
  cases hpf : preflightCheck ts with
  | some e => rw [hpf] at h; simp at h
  | none =>
    rw [hpf] at h
    simp only [] at h
    by_cases hc : inp.contractSet = false
    · rw [if_pos hc] at h; simp at h
    · rw [if_neg hc] at h ⊢
      by_cases hval : (resolveReferrer inp.promptInput != zeroAddress &&
          !(isHexAddress (resolveReferrer inp.promptInput))) = true
      · rw [if_pos hval] at h; simp at h
      · rw [if_neg hval] at h ⊢
        cases hs : inp.simOutcome with
        | some m => rw [hs] at h; simp at h
        | none =>
          rw [hs] at h
          simp only [] at h
          by_cases ht : inp.txOk = true
          · rw [if_pos ht] at h ⊢
            refine ⟨?_, by simp⟩
            rw [List.getLast?_concat]
          · rw [if_neg ht] at h; simp at h

theorem simErrorToRegError_ne_format (m : String) :
    simErrorToRegError m ≠ RegError.invalidReferrerFormat := by
  unfold simErrorToRegError
  cases classifyRevert m <;> simp

theorem preflightCheck_not_invalid (ts : Option TokenStatus) :
    preflightCheck ts ≠ some RegError.invalidReferrerFormat := by
  unfold preflightCheck
  cases ts with
  | none => simp
  | some s =>
    by_cases hb : s.balance < 10 <;> by_cases ha : s.allowance < 10 <;> simp [hb, ha]

theorem register_accepts_hex_referrer (inp : RegisterInput)
    (hr : isHexAddress (resolveReferrer inp.promptInput) = true) :
    (register inp).2 ≠ some RegError.invalidReferrerFormat := by
  rcases hts : checkUSDTStatus inp.tokenQuery with ⟨tsSteps, ts⟩
  simp only [register, hts]
  cases hpf : preflightCheck ts with
  | some e =>
    simp only []
    intro hcon
    have he : e = RegError.invalidReferrerFormat := by simpa using hcon
    subst he
    exact absurd hpf (preflightCheck_not_invalid ts)
  | none =>
    simp only []
    split
    · simp
    · rw [hr]
      simp only [Bool.not_true, Bool.and_false]
      rw [if_neg (by simp)]
      split
      · rename_i m _
        simp [simErrorToRegError_ne_format m]
      · split <;> simp

theorem register_rejects_bad_referrer (inp : RegisterInput)
    (hpf : preflightCheck (checkUSDTStatus inp.tokenQuery).2 = none)
    (hc : inp.contractSet = true)
    (hz : resolveReferrer inp.promptInput ≠ zeroAddress)
    (hr : isHexAddress (resolveReferrer inp.promptInput) = false) :
    register inp =
      ((checkUSDTStatus inp.tokenQuery).1 ++ [RegStep.detailsQuery, RegStep.promptUser],
        some RegError.invalidReferrerFormat) := by
  rcases hts : checkUSDTStatus inp.tokenQuery with ⟨tsSteps, ts⟩
  rw [hts] at hpf
  simp [register, hts, hpf, hc, hz, hr]

/-- C2: with threshold 10, a token status of balance 9 / allowance 10 makes
`register` fail with the insufficient-balance error before any simulation is
attempted; a status of balance 10 / allowance 10 passes the pre-flight —
neither insufficiency error is raised — and, with the contract handle set and
a well-formed referrer, the simulation step is reached. -/
theorem register_preflight_thresholds (inp : RegisterInput) :
    (inp.tokenQuery = TokenQueryOutcome.ok { balance := 9, allowance := 10 } →
      (register inp).2 = some RegError.insufficientBalance ∧
      ∀ r, RegStep.simulation r ∉ (register inp).1) ∧
    (inp.tokenQuery = TokenQueryOutcome.ok { balance := 10, allowance := 10 } →
      (register inp).2 ≠ some RegError.insufficientBalance ∧
      (register inp).2 ≠ some RegError.insufficientAllowance ∧
      (inp.contractSet = true →
        isHexAddress (resolveReferrer inp.promptInput) = true →
        RegStep.simulation (resolveReferrer inp.promptInput) ∈ (register inp).1)) := by
  constructor
  · intro hq
    have hpf : preflightCheck (checkUSDTStatus inp.tokenQuery).2 =
        some RegError.insufficientBalance := by
      rw [hq]; decide
    refine ⟨?_, register_no_simulation_on_preflight_error inp _ hpf⟩
    rw [register_preflight_stops inp _ hpf]
  · intro hq
    have hpf : preflightCheck (checkUSDTStatus inp.tokenQuery).2 = none := by
      rw [hq]; decide
    obtain ⟨h1, h2⟩ := register_no_insufficiency_after_preflight inp hpf
    exact ⟨h1, h2, fun hc hr => register_reaches_simulation inp hpf hc hr⟩

/-- C2 witness: concrete runs at balance 9 / allowance 10 (rejected with the
insufficient-balance error) and balance 10 / allowance 10 (simulation
reached). -/
theorem register_preflight_thresholds_witness :
    (register regInputLowBalance).2 = some RegError.insufficientBalance ∧
    RegStep.simulation (resolveReferrer regInputExactThreshold.promptInput) ∈
      (register regInputExactThreshold).1 :=
  ⟨((register_preflight_thresholds regInputLowBalance).1 rfl).1,
   ((register_preflight_thresholds regInputExactThreshold).2 rfl).2.2 rfl (by decide)⟩

/-- C3 counterexample: the empty referrer entry — a string that is neither the
zero-address literal nor of the `0x`+40-hex form — is not rejected: it
resolves to the zero address and register proceeds to simulation.  Moreover a
genuinely malformed entry is rejected only after the token-status network
query has already run. -/
theorem register_referrer_cex :
    isHexAddress emptyStr = false ∧
    emptyStr ≠ zeroAddress ∧
    (register regInputEmptyRef).2 ≠ some RegError.invalidReferrerFormat ∧
    RegStep.simulation zeroAddress ∈ (register regInputEmptyRef).1 ∧
    (register regInputBadRef).2 = some RegError.invalidReferrerFormat ∧
    RegStep.tokenStatusQuery ∈ (register regInputBadRef).1 := by
  decide

/-- C3 (amended): a referrer entry matching `0x` + 40 hex digits (the all-zero
address included) is accepted; the empty entry and a cancelled prompt resolve
to the zero address and are likewise accepted as "no referrer"; every other
entry is rejected with the invalid-referrer-format error, with no simulation
and no transaction request issued — the rejection follows the token-status and
registered-pre-check queries, which precede referrer entry. -/
theorem register_referrer_rules (inp : RegisterInput) (s : String)
    (hpf : preflightCheck (checkUSDTStatus inp.tokenQuery).2 = none)
    (hc : inp.contractSet = true) :
    (inp.promptInput = some s → s ≠ "" → isHexAddress s = true →
      (register inp).2 ≠ some RegError.invalidReferrerFormat ∧
      RegStep.simulation s ∈ (register inp).1) ∧
    (inp.promptInput = some s → s = "" →
      resolveReferrer inp.promptInput = zeroAddress ∧
      (register inp).2 ≠ some RegError.invalidReferrerFormat ∧
      RegStep.simulation zeroAddress ∈ (register inp).1) ∧
    (inp.promptInput = none →
      resolveReferrer inp.promptInput = zeroAddress ∧
      (register inp).2 ≠ some RegError.invalidReferrerFormat ∧
      RegStep.simulation zeroAddress ∈ (register inp).1) ∧
    (inp.promptInput = some s → s ≠ "" → isHexAddress s = false →
      (register inp).2 = some RegError.invalidReferrerFormat ∧
      (∀ r, RegStep.simulation r ∉ (register inp).1) ∧
      (∀ r g, RegStep.txRegister r g ∉ (register inp).1) ∧
      RegStep.detailsQuery ∈ (register inp).1 ∧
      RegStep.promptUser ∈ (register inp).1) := by
  refine ⟨?_, ?_, ?_, ?_⟩
  · intro hs hne hhex
    have hres : resolveReferrer inp.promptInput = s := by
      simp [resolveReferrer, hs, hne]
    have hr : isHexAddress (resolveReferrer inp.promptInput) = true := by
      rw [hres]; exact hhex
    refine ⟨register_accepts_hex_referrer inp hr, ?_⟩
    have hsim := register_reaches_simulation inp hpf hc hr
    rwa [hres] at hsim
  · intro hs hse
    subst hse
    have hres : resolveReferrer inp.promptInput = zeroAddress := by
      simp [resolveReferrer, hs]
    have hr : isHexAddress (resolveReferrer inp.promptInput) = true := by
      rw [hres]; decide
    refine ⟨hres, register_accepts_hex_referrer inp hr, ?_⟩
    have hsim := register_reaches_simulation inp hpf hc hr
    rwa [hres] at hsim
  · intro hs
    have hres : resolveReferrer inp.promptInput = zeroAddress := by
      simp [resolveReferrer, hs]
    have hr : isHexAddress (resolveReferrer inp.promptInput) = true := by
      rw [hres]; decide
    refine ⟨hres, register_accepts_hex_referrer inp hr, ?_⟩
    have hsim := register_reaches_simulation inp hpf hc hr
    rwa [hres] at hsim
  · intro hs hne hhex
    have hres : resolveReferrer inp.promptInput = s := by
      simp [resolveReferrer, hs, hne]
    have hz : resolveReferrer inp.promptInput ≠ zeroAddress := by
      rw [hres]
      intro hcon
      rw [hcon] at hhex
      exact absurd hhex (by decide)
    have hr : isHexAddress (resolveReferrer inp.promptInput) = false := by
      rw [hres]; exact hhex
    have hreg := register_rejects_bad_referrer inp hpf hc hz hr
    rw [hreg]
    refine ⟨rfl, ?_, ?_, by simp, by simp⟩
    · intro r
      cases hq : inp.tokenQuery <;> simp [checkUSDTStatus, hq]
    · intro r g
      cases hq : inp.tokenQuery <;> simp [checkUSDTStatus, hq]

/-- C3 witness: the amended rules applied to a well-formed hex referrer entry,
which is accepted and reaches simulation. -/
theorem register_referrer_rules_witness :
    (register regInputHexRef).2 ≠ some RegError.invalidReferrerFormat ∧
    RegStep.simulation referrerHexInput ∈ (register regInputHexRef).1 :=
  (register_referrer_rules regInputHexRef referrerHexInput (by decide) rfl).1
    rfl (by decide) (by decide)

/-- C4 counterexample: the message "execution reverted: fee too low" contains
none of the keywords of the four listed variants, yet it is classified into
the fee/amount bucket rather than the Unknown variant. -/
theorem classify_fee_cex :
    kwAlready (lowerStr feeRevertMsg) = false ∧
    kwReferrer (lowerStr feeRevertMsg) = false ∧
    kwAllowance (lowerStr feeRevertMsg) = false ∧
    kwBalance (lowerStr feeRevertMsg) = false ∧
    classifyRevert feeRevertMsg = SimErrorClass.feeIssue ∧
    classifyRevert feeRevertMsg ≠ SimErrorClass.unknown := by
  decide

/-- C4 (amended): the revert message is classified first-match-wins in the
order AlreadyRegistered, InvalidReferrer, InsufficientAllowance,
InsufficientBalance, then a fee/amount bucket, and only a message matching
none of the five keyword sets maps to the Unknown variant. -/
theorem classify_order (msg : String) :
    (kwAlready (lowerStr msg) = true →
      classifyRevert msg = SimErrorClass.alreadyRegistered) ∧
    (kwAlready (lowerStr msg) = false → kwReferrer (lowerStr msg) = true →
      classifyRevert msg = SimErrorClass.invalidReferrer) ∧
    (kwAlready (lowerStr msg) = false → kwReferrer (lowerStr msg) = false →
      kwAllowance (lowerStr msg) = true →
      classifyRevert msg = SimErrorClass.insufficientAllowance) ∧
    (kwAlready (lowerStr msg) = false → kwReferrer (lowerStr msg) = false →
      kwAllowance (lowerStr msg) = false → kwBalance (lowerStr msg) = true →
      classifyRevert msg = SimErrorClass.insufficientBalance) ∧
    (kwAlready (lowerStr msg) = false → kwReferrer (lowerStr msg) = false →
      kwAllowance (lowerStr msg) = false → kwBalance (lowerStr msg) = false →
      kwFee (lowerStr msg) = true →
      classifyRevert msg = SimErrorClass.feeIssue) ∧
    (kwAlready (lowerStr msg) = false → kwReferrer (lowerStr msg) = false →
      kwAllowance (lowerStr msg) = false → kwBalance (lowerStr msg) = false →
      kwFee (lowerStr msg) = false →
      classifyRevert msg = SimErrorClass.unknown) := by
  unfold classifyRevert
  refine ⟨?_, ?_, ?_, ?_, ?_, ?_⟩ <;> intros <;> simp_all

/-- C4 witness: a message containing both the already-registered and the
balance keywords is classified as AlreadyRegistered, the earliest matching
variant. -/
theorem classify_order_witness :
    kwAlready (lowerStr multiKeywordMsg) = true ∧
    classifyRevert multiKeywordMsg = SimErrorClass.alreadyRegistered :=
  ⟨by decide, (classify_order multiKeywordMsg).1 (by decide)⟩

/-- C8: after a successfully confirmed transaction, each of the three mutating
actions re-runs the user-record query as its final step, regardless of which
action ran. -/
theorem post_action_refresh (inp : RegisterInput) (c1 t1 c2 t2 : Bool) :
    ((register inp).2 = none →
      (register inp).1.getLast? = some RegStep.userRefresh ∧
      RegStep.txRegister (resolveReferrer inp.promptInput) 300000 ∈ (register inp).1) ∧
    ((upgrade c1 t1).2 = none →
      (upgrade c1 t1).1.getLast? = some RegStep.userRefresh ∧
      RegStep.txUpgrade ∈ (upgrade c1 t1).1) ∧
    ((withdraw c2 t2).2 = none →
      (withdraw c2 t2).1.getLast? = some RegStep.userRefresh ∧
      RegStep.txWithdraw ∈ (withdraw c2 t2).1) := by
  refine ⟨register_success_shape inp, ?_, ?_⟩
  · cases c1 <;> cases t1 <;> decide
  · cases c2 <;> cases t2 <;> decide

/-- C8 witness: a fully successful register run and successful upgrade and
withdraw runs all end with the user-record refresh. -/
theorem post_action_refresh_witness :
    (register regInputBase).1.getLast? = some RegStep.userRefresh ∧
    (upgrade true true).1.getLast? = some RegStep.userRefresh ∧
    (withdraw true true).1.getLast? = some RegStep.userRefresh :=
  ⟨((post_action_refresh regInputBase true true true true).1 (by decide)).1,
   ((post_action_refresh regInputBase true true true true).2.1 (by decide)).1,
   ((post_action_refresh regInputBase true true true true).2.2 (by decide)).1⟩

/-- C9: the pre-simulation registered check is inert — the whole run of
`register` is unchanged under any outcome of that check (the error it throws,
including the already-registered one, is swallowed by the catch clause of
the same block), and an already-registered failure can only arise from the
revert-message classification at the simulation step. -/
theorem precheck_inert (inp : RegisterInput) (d d' : Except String UserDetails)
    (u : UserDetails) :
    register { inp with detailsPre := d } = register { inp with detailsPre := d' } ∧
    (u.existsFlag = true → preCheckThrown (Except.ok u) = some alreadyRegisteredMsg) ∧
    ((register inp).2 = some RegError.alreadyRegistered →
      ∃ m, inp.simOutcome = some m ∧
        classifyRevert m = SimErrorClass.alreadyRegistered) := by
  refine ⟨rfl, ?_, register_alreadyRegistered_from_sim inp⟩
  intro hu
  simp [preCheckThrown, hu]

/-- C9 witness: with an existing user the pre-check generates the
already-registered error (which is swallowed), and the only run producing an
already-registered failure is one whose simulation reverts with that
message. -/
theorem precheck_inert_witness :
    preCheckThrown (Except.ok userExistsDetails) = some alreadyRegisteredMsg ∧
    (∃ m, regInputSimAlready.simOutcome = some m ∧
      classifyRevert m = SimErrorClass.alreadyRegistered) :=
  ⟨(precheck_inert regInputSimAlready regInputSimAlready.detailsPre
      regInputSimAlready.detailsPre userExistsDetails).2.1 rfl,
   (precheck_inert regInputSimAlready regInputSimAlready.detailsPre
      regInputSimAlready.detailsPre userExistsDetails).2.2 (by decide)⟩

/-- C10: when the token-status query itself fails (returns no
balance/allowance pair), the pre-flight checks are skipped — neither
insufficiency error can be raised — and register proceeds to referrer entry
and, under the usual guards, to simulation; the failed fetch never blocks. -/
theorem tokenquery_failure_nonblocking (inp : RegisterInput)
    (hq : inp.tokenQuery = TokenQueryOutcome.queryError) :
    (register inp).2 ≠ some RegError.insufficientBalance ∧
    (register inp).2 ≠ some RegError.insufficientAllowance ∧
    RegStep.promptUser ∈ (register inp).1 ∧
    (inp.contractSet = true →
      isHexAddress (resolveReferrer inp.promptInput) = true →
      RegStep.simulation (resolveReferrer inp.promptInput) ∈ (register inp).1) := by
  have hpf : preflightCheck (checkUSDTStatus inp.tokenQuery).2 = none := by
    rw [hq]; rfl
  obtain ⟨h1, h2⟩ := register_no_insufficiency_after_preflight inp hpf
  exact ⟨h1, h2, register_prompt_reached inp hpf,
    fun hc hr => register_reaches_simulation inp hpf hc hr⟩

/-- C10 witness: a run whose token-status query fails still reaches the
referrer prompt and the simulation step. -/
theorem tokenquery_failure_nonblocking_witness :
    RegStep.promptUser ∈ (register regInputQueryError).1 ∧
    RegStep.simulation zeroAddress ∈ (register regInputQueryError).1 :=
  ⟨(tokenquery_failure_nonblocking regInputQueryError rfl).2.2.1,
   (tokenquery_failure_nonblocking regInputQueryError rfl).2.2.2 rfl (by decide)⟩

end Verse
